import Mathlib

/-!
Shallow embedding of the student-management console application
(`src/main.py` of nuonvakhim/learn-python) and proofs about it.

Modelling conventions:
- The Access database file is modelled as an explicit `DB` state: a list of
  `Users` rows and a list of `Students` rows, plus the AUTOINCREMENT counters.
- Python floats (the `score` column, typed `DOUBLE`) are modelled as `ℚ`.
- Every operation that opens a connection takes a `connOk : Bool` flag:
  `false` models `pyodbc.connect` raising inside `get_connection`; the
  operation's `except` clause turns that into an explicit error outcome.
- Python's `float(...)` parsing is abstracted as a `parse : String → Option ℚ`
  parameter (`none` models `ValueError`); a concrete `parseScore` covering
  plain decimal literals is provided for evaluating on concrete inputs.
- Console prompting/printing is dropped; the stripped input strings become
  the operations' arguments and the printed messages become outcome values.
-/

/-- Membership test for a pattern occurring contiguously inside a string,
used to model Python's `'access' in d.lower()` test. -/
def hasSubstr (s pat : String) : Bool :=
  (List.range (s.data.length + 1)).any
    (fun i => (s.data.drop i).take pat.data.length = pat.data)

/-- The fixed preference list from `find_access_driver`
(`preferred_drivers` in `src/main.py:17-21`). -/
def preferred_drivers : List String :=
  [ "Microsoft Access Driver (*.mdb, *.accdb)"
  , "Microsoft Access Driver (*.mdb)"
  , "Driver do Microsoft Access (*.mdb)"
  ]

/-- Python's `str.lower()` on the ASCII driver names, character by
character. -/
def lowerStr (s : String) : String :=
  ⟨s.data.map Char.toLower⟩

/-- `'access' in d.lower() or 'mdb' in d.lower()` (`src/main.py:14`). -/
def isAccessName (d : String) : Bool :=
  hasSubstr (lowerStr d) "access" || hasSubstr (lowerStr d) "mdb"

/-- `find_access_driver` (`src/main.py:12-32`): filter the host's driver
list down to Access/mdb drivers, return the first preferred name present,
else the first compatible driver, else `none`. -/
def find_access_driver (allDrivers : List String) : Option String :=
  let drivers := allDrivers.filter isAccessName
  match preferred_drivers.find? (fun p => drivers.contains p) with
  | some p => some p
  | none => drivers.head?

/-- One row of the `Users` table (`src/main.py:95-99`). -/
structure UserRow where
  id : Nat
  username : String
  password : String
deriving Repr, DecidableEq

/-- One row of the `Students` table (`src/main.py:108-113`). -/
structure StudentRow where
  id : Nat
  student_id : String
  name : String
  score : ℚ
deriving Repr, DecidableEq

/-- The state of the Access database file: both tables plus the
AUTOINCREMENT counters for the surrogate `id` columns. -/
structure DB where
  users : List UserRow
  students : List StudentRow
  nextUserId : Nat
  nextStudentId : Nat
deriving Repr, DecidableEq

/-- A concrete model of Python's `float(...)` restricted to plain decimal
literals (`digits` or `digits.digits`); anything else is `ValueError`
(`none`). Used only to evaluate the parse-parametric operations on
concrete inputs. -/
def parseDigitsAux : List Char → Nat → Option Nat
  | [], acc => some acc
  | c :: cs, acc =>
      if c.isDigit then parseDigitsAux cs (acc * 10 + (c.toNat - 48))
      else none

/-- Split a character list at the occurrences of the decimal point. -/
def splitOnDot : List Char → List (List Char)
  | [] => [[]]
  | c :: cs =>
      let r := splitOnDot cs
      if c = '.' then [] :: r
      else
        match r with
        | h :: t => (c :: h) :: t
        | [] => [[c]]

/-- See `parseDigitsAux`: decimal-literal model of Python's `float`. -/
def parseScore (s : String) : Option ℚ :=
  if s.data = [] then none
  else
    match splitOnDot s.data with
    | [w] =>
        match parseDigitsAux w 0 with
        | some n => some (n : ℚ)
        | none => none
    | [w, f] =>
        match parseDigitsAux w 0, parseDigitsAux f 0 with
        | some n, some m => some ((n : ℚ) + (m : ℚ) / (10 : ℚ) ^ f.length)
        | _, _ => none
    | _ => none

/-- Outcome of `register` (`src/main.py:125-144`): the printed message. -/
inductive RegOutcome
  | invalidInput        -- "Username and password cannot be empty."
  | registered          -- "User registered successfully."
  | duplicateUsername   -- "Username already exists." (pyodbc.IntegrityError)
  | connError           -- "Error during registration: ..." (other Exception)
deriving Repr, DecidableEq

/-- `register` (`src/main.py:125-144`): empty-field check before the
connection is opened; INSERT hits the UNIQUE constraint on `username`
(IntegrityError) when the name is taken; otherwise insert and commit. -/
def register (connOk : Bool) (db : DB) (username password : String) :
    DB × RegOutcome :=
  if username = "" ∨ password = "" then (db, .invalidInput)
  else if !connOk then (db, .connError)
  else if db.users.any (fun u => u.username == username) then
    (db, .duplicateUsername)
  else
    (⟨ db.users ++ [⟨db.nextUserId, username, password⟩]
     , db.students, db.nextUserId + 1, db.nextStudentId⟩, .registered)

/-- `login` (`src/main.py:147-167`):
`SELECT id FROM Users WHERE username = ? AND password = ?`, `fetchone`,
`True` iff a row came back; every exception path returns `False`. -/
def login (connOk : Bool) (db : DB) (username password : String) : Bool :=
  if !connOk then false
  else
    (db.users.find?
      (fun u => u.username == username && u.password == password)).isSome

/-- Outcome of `add_student` (`src/main.py:171-192`). -/
inductive AddOutcome
  | invalidScore   -- "Invalid score." (float() raised ValueError)
  | added          -- "Student added."
  | duplicateId    -- "Student ID already exists." (pyodbc.IntegrityError)
  | connError      -- "Error adding student: ..."
deriving Repr, DecidableEq

/-- `add_student` (`src/main.py:171-192`): parse the score before touching
the database; INSERT hits the UNIQUE constraint on `student_id` when taken;
otherwise insert and commit. -/
def add_student (parse : String → Option ℚ) (connOk : Bool) (db : DB)
    (student_id name scoreInput : String) : DB × AddOutcome :=
  match parse scoreInput with
  | none => (db, .invalidScore)
  | some score =>
      if !connOk then (db, .connError)
      else if db.students.any (fun r => r.student_id == student_id) then
        (db, .duplicateId)
      else
        (⟨ db.users
         , db.students ++ [⟨db.nextStudentId, student_id, name, score⟩]
         , db.nextUserId, db.nextStudentId + 1⟩, .added)

/-- `search_student_by_id` (`src/main.py:212-227`):
`SELECT ... WHERE student_id = ?`, `fetchone`. -/
def search_student_by_id (db : DB) (student_id : String) :
    Option StudentRow :=
  db.students.find? (fun r => r.student_id == student_id)

/-- Outcome of `update_student` (`src/main.py:249-282`). -/
inductive UpdOutcome
  | notFound              -- "Student not found."
  | updated               -- "Student updated."
  | updatedInvalidScore   -- "Invalid score. Keeping old value." then updated
  | connError             -- "Error updating student: ..."
deriving Repr, DecidableEq

/-- `update_student` (`src/main.py:249-282`): fetch the row first
(`fetchone`); blank `new_name` keeps the old name; blank `new_score_input`
keeps the old score; a non-blank unparsable score prints a warning and
keeps the old value; then `UPDATE ... WHERE student_id = ?` and commit. -/
def update_student (parse : String → Option ℚ) (connOk : Bool) (db : DB)
    (student_id new_name new_score_input : String) : DB × UpdOutcome :=
  if !connOk then (db, .connError)
  else
    match db.students.find? (fun r => r.student_id == student_id) with
    | none => (db, .notFound)
    | some row =>
        let name_final := if new_name ≠ "" then new_name else row.name
        let parsed :=
          if new_score_input ≠ "" then
            match parse new_score_input with
            | some q => (q, false)
            | none => (row.score, true)
          else (row.score, false)
        (⟨ db.users
         , db.students.map (fun r =>
             if r.student_id == student_id then
               ⟨r.id, r.student_id, name_final, parsed.1⟩
             else r)
         , db.nextUserId, db.nextStudentId⟩,
         if parsed.2 then .updatedInvalidScore else .updated)

/-- Outcome of `delete_student` (`src/main.py:285-300`). -/
inductive DelOutcome
  | notFound    -- "Student not found." (rowcount == 0, no commit)
  | deleted     -- "Student deleted." (committed)
  | connError   -- "Error deleting student: ..."
deriving Repr, DecidableEq

/-- `delete_student` (`src/main.py:285-300`):
`DELETE FROM Students WHERE student_id = ?`; if `cur.rowcount == 0` report
not-found and skip the commit, else commit. -/
def delete_student (connOk : Bool) (db : DB) (student_id : String) :
    DB × DelOutcome :=
  if !connOk then (db, .connError)
  else
    let remaining := db.students.filter (fun r => !(r.student_id == student_id))
    if remaining.length = db.students.length then (db, .notFound)
    else (⟨db.users, remaining, db.nextUserId, db.nextStudentId⟩, .deleted)

/-- `count_students` (`src/main.py:303-311`): `SELECT COUNT(*)`. -/
def count_students (db : DB) : Nat :=
  db.students.length

/-- `calculate_average_score` (`src/main.py:314-325`):
`SELECT AVG(score)`; SQL `AVG` is `NULL` over zero rows, else the
arithmetic mean; the Python distinguishes the `None` case and prints the
average otherwise. -/
def calculate_average_score (db : DB) : Option ℚ :=
  if db.students.isEmpty then none
  else some ((db.students.map StudentRow.score).sum / db.students.length)

/-- `show_passed_students` (`src/main.py:328-341`):
`SELECT ... WHERE score >= ?` with `pass_mark` defaulting to `50.0`. -/
def show_passed_students (db : DB) (pass_mark : ℚ := 50) : List StudentRow :=
  db.students.filter (fun r => pass_mark ≤ r.score)

/-- `show_failed_students` (`src/main.py:344-357`):
`SELECT ... WHERE score < ?` with `pass_mark` defaulting to `50.0`. -/
def show_failed_students (db : DB) (pass_mark : ℚ := 50) : List StudentRow :=
  db.students.filter (fun r => r.score < pass_mark)

/-- The two menu levels of the session loop (`src/main.py:383-430`). -/
inductive Mode
  | top          -- main menu: Register / Login / Exit
  | studentMenu  -- student operations menu
deriving Repr, DecidableEq

/-- What one iteration of the top-level `main` loop does with a choice. -/
inductive MainStep
  | next (m : Mode)   -- loop continues in mode `m`
  | exitProcess       -- `sys.exit(0)` ("Exiting program.")
deriving Repr, DecidableEq

/-- How the process startup (`main` → `init_db` → `get_connection`) ends.
`connectOk = false` models `pyodbc.connect` raising: `get_connection`
re-raises (`src/main.py:73`), `init_db` re-raises (`src/main.py:121`), and
nothing in `main` catches it, so the process dies with a traceback. -/
inductive StartupResult
  | menuEntered          -- init_db succeeded; the main menu loop starts
  | exitDriverNotFound   -- sys.exit(1) at src/main.py:51, no driver found
  | exitInitError        -- uncaught exception out of init_db / main
deriving Repr, DecidableEq

/-- Startup path of `main` (`src/main.py:415-416`, `85-121`, `35-73`). -/
def startup (hostDrivers : List String) (connectOk : Bool) : StartupResult :=
  match find_access_driver hostDrivers with
  | none => .exitDriverNotFound
  | some _ => if connectOk then .menuEntered else .exitInitError

/-- One iteration of `student_menu_loop` (`src/main.py:383-412`): choice
`"11"` breaks back to the top-level menu; every other choice dispatches an
operation (whose errors it handles internally: `opFailed` records whether
the operation hit an error) or prints "Invalid choice" and loops. -/
def student_menu_step (choice : String) (opFailed : Bool) : Mode :=
  if choice = "11" then .top else .studentMenu

/-- One iteration of the `main` loop (`src/main.py:417-430`): `"1"` runs
`register` (errors handled inside) and loops, `"2"` enters the student
menu iff `login` returned `True`, `"3"` is `sys.exit(0)`, anything else
reprints the menu. `opFailed` records whether the dispatched operation
hit an error. -/
def main_menu_step (choice : String) (loginResult : Bool) (opFailed : Bool) :
    MainStep :=
  if choice = "1" then .next .top
  else if choice = "2" then
    (if loginResult then .next .studentMenu else .next .top)
  else if choice = "3" then .exitProcess
  else .next .top

/-! ## Helper lemmas -/

/-- A duplicate-free list whose elements are all equal has at most one
element. -/
theorem nodup_const_length_le_one {α : Type} {l : List α} {a : α}
    (hn : l.Nodup) (h : ∀ x ∈ l, x = a) : l.length ≤ 1 := by
  match l with
  | [] => simp
  | [x] => simp
  | x :: y :: t =>
    exfalso
    have hx := h x (by simp)
    have hy := h y (by simp)
    have hne := (List.nodup_cons.mp hn).1
    rw [hx, hy] at hne
    exact hne (by simp)

/-- Replacing the matching rows by a function that fixes them leaves the
student list unchanged. -/
theorem map_update_id {l : List StudentRow} {sid : String}
    {f : StudentRow → StudentRow}
    (hfix : ∀ r ∈ l, (r.student_id == sid) = true → f r = r) :
    l.map (fun r => if r.student_id == sid then f r else r) = l := by
  induction l with
  | nil => rfl
  | cons x t ih =>
    simp only [List.map_cons, List.cons.injEq]
    constructor
    · by_cases hx : (x.student_id == sid) = true
      · simp [hx, hfix x (by simp) hx]
      · simp [hx]
    · exact ih (fun r hr => hfix r (by simp [hr]))

/-- Updating the unique row matching `sid` by an id-preserving function:
the row found afterwards is the image of the row found before. -/
theorem find?_map_update {l : List StudentRow} {sid : String}
    {row : StudentRow} {g : StudentRow → StudentRow}
    (hnd : (l.map StudentRow.student_id).Nodup)
    (hfind : l.find? (fun r => r.student_id == sid) = some row)
    (hg : ∀ r, (g r).student_id = r.student_id) :
    (l.map (fun r => if r.student_id == sid then g r else r)).find?
      (fun r => r.student_id == sid) = some (g row) := by
  induction l with
  | nil => simp at hfind
  | cons x t ih =>
    have hnd' : (List.map StudentRow.student_id t).Nodup := by
      simp only [List.map_cons, List.nodup_cons] at hnd
      exact hnd.2
    by_cases hx : (x.student_id == sid) = true
    · rw [@List.find?_cons_of_pos _ (fun r => r.student_id == sid) x t hx] at hfind
      injection hfind with hrow
      subst hrow
      rw [List.map_cons, if_pos hx]
      apply List.find?_cons_of_pos
      have hgx : (g x).student_id = x.student_id := hg x
      show ((g x).student_id == sid) = true
      rw [hgx]
      exact hx
    · rw [@List.find?_cons_of_neg _ (fun r => r.student_id == sid) x t hx] at hfind
      rw [List.map_cons, if_neg hx,
        @List.find?_cons_of_neg _ (fun r => r.student_id == sid) x
          (t.map (fun r => if r.student_id == sid then g r else r)) hx]
      exact ih hnd' hfind

/-! ## Claim theorems -/

/-- C9: for every list of driver names available on the host,
`find_access_driver` returns the first name from the fixed preferred list
that is present among the compatible (Access/mdb) drivers; if no preferred
name is present it returns the first available compatible driver; if no
compatible driver is available it returns `none`. -/
theorem find_access_driver_resolution (ds : List String) :
    (ds.filter isAccessName = [] → find_access_driver ds = none) ∧
    (∀ p, preferred_drivers.find?
        (fun q => (ds.filter isAccessName).contains q) = some p →
      find_access_driver ds = some p) ∧
    (preferred_drivers.find?
        (fun q => (ds.filter isAccessName).contains q) = none →
      ∀ d rest, ds.filter isAccessName = d :: rest →
        find_access_driver ds = some d) := by
  refine ⟨?_, ?_, ?_⟩
  · intro h
    simp only [find_access_driver, h]
    rfl
  · intro p hp
    simp only [find_access_driver]
    rw [hp]
  · intro hn d rest hcompat
    simp only [find_access_driver]
    rw [hn, hcompat]
    rfl

/-- C9 witness: a host with a non-Access driver and one preferred Access
driver resolves to that preferred driver. -/
theorem find_access_driver_resolution_witness :
    find_access_driver ["SQL Server", "Microsoft Access Driver (*.mdb)"]
      = some "Microsoft Access Driver (*.mdb)" :=
  (find_access_driver_resolution
      ["SQL Server", "Microsoft Access Driver (*.mdb)"]).2.1
    "Microsoft Access Driver (*.mdb)" rfl

/-- C10: every exception path of `login` (modelled by the failed-connection
flag) returns `False`, so a store failure during login is collapsed into a
denied login and the top-level menu loop stays in the unauthenticated top
state. -/
theorem login_failure_collapses_to_false (db : DB) (u p : String)
    (err : Bool) :
    login false db u p = false ∧
    main_menu_step "2" (login false db u p) err = .next .top := by
  constructor
  · rfl
  · rfl

/-- C7: `calculate_average_score` returns no value over zero rows (no
division by zero, no error), the arithmetic mean over all rows otherwise,
and `70` over rows with scores `60` and `80`. -/
theorem calculate_average_score_spec :
    (∀ db : DB, db.students = [] → calculate_average_score db = none) ∧
    (∀ db : DB, db.students ≠ [] →
      calculate_average_score db
        = some ((db.students.map StudentRow.score).sum /
            (db.students.length : ℚ))) ∧
    calculate_average_score
      ⟨[], [⟨1, "S1", "A", 60⟩, ⟨2, "S2", "B", 80⟩], 0, 3⟩ = some 70 := by
  refine ⟨?_, ?_, ?_⟩
  · intro db h
    simp [calculate_average_score, h]
  · intro db h
    simp [calculate_average_score, List.isEmpty_iff, h]
  · simp only [calculate_average_score]
    norm_num

/-- C7 witness: the two quantified parts evaluated at concrete stores. -/
theorem calculate_average_score_spec_witness :
    calculate_average_score ⟨[], [], 0, 0⟩ = none ∧
    calculate_average_score ⟨[], [⟨1, "S1", "A", 60⟩], 0, 2⟩ = some 60 := by
  constructor
  · exact calculate_average_score_spec.1 ⟨[], [], 0, 0⟩ rfl
  · have h := calculate_average_score_spec.2.1
      ⟨[], [⟨1, "S1", "A", 60⟩], 0, 2⟩ (by simp)
    rw [h]
    norm_num

/-- C2: for every database state, `show_passed_students` (score `>= 50`)
and `show_failed_students` (score `< 50`) partition the student rows: no
row is in both, none is omitted, both only return student rows, and a row
with score exactly `50` lands in the passed set. -/
theorem passed_failed_partition (db : DB) :
    (∀ r, ¬(r ∈ show_passed_students db 50 ∧ r ∈ show_failed_students db 50)) ∧
    (∀ r ∈ db.students,
      r ∈ show_passed_students db 50 ∨ r ∈ show_failed_students db 50) ∧
    (∀ r ∈ show_passed_students db 50, r ∈ db.students) ∧
    (∀ r ∈ show_failed_students db 50, r ∈ db.students) ∧
    (∀ r ∈ db.students, r.score = 50 → r ∈ show_passed_students db 50) := by
  refine ⟨?_, ?_, ?_, ?_, ?_⟩
  · rintro r ⟨hp, hf⟩
    have h1 : (50 : ℚ) ≤ r.score :=
      by simpa using (List.mem_filter.mp hp).2
    have h2 : r.score < 50 :=
      by simpa using (List.mem_filter.mp hf).2
    exact absurd h1 (not_le.mpr h2)
  · intro r hr
    rcases le_or_lt 50 r.score with h | h
    · exact Or.inl (List.mem_filter.mpr ⟨hr, by simpa using h⟩)
    · exact Or.inr (List.mem_filter.mpr ⟨hr, by simpa using h⟩)
  · intro r hr
    exact (List.mem_filter.mp hr).1
  · intro r hr
    exact (List.mem_filter.mp hr).1
  · intro r hr hs
    exact List.mem_filter.mpr ⟨hr, by simp [hs]⟩

/-- C2 witness: in a two-row store, the boundary row with score exactly
`50` is among the passed rows and the row below the mark is covered by the
failed side. -/
theorem passed_failed_partition_witness :
    (⟨1, "S1", "A", 50⟩ : StudentRow)
        ∈ show_passed_students ⟨[], [⟨1, "S1", "A", 50⟩, ⟨2, "S2", "B", 49⟩], 0, 3⟩ 50 ∧
    ((⟨2, "S2", "B", 49⟩ : StudentRow)
        ∈ show_passed_students ⟨[], [⟨1, "S1", "A", 50⟩, ⟨2, "S2", "B", 49⟩], 0, 3⟩ 50 ∨
     (⟨2, "S2", "B", 49⟩ : StudentRow)
        ∈ show_failed_students ⟨[], [⟨1, "S1", "A", 50⟩, ⟨2, "S2", "B", 49⟩], 0, 3⟩ 50) := by
  constructor
  · exact (passed_failed_partition
      ⟨[], [⟨1, "S1", "A", 50⟩, ⟨2, "S2", "B", 49⟩], 0, 3⟩).2.2.2.2
      ⟨1, "S1", "A", 50⟩ (by decide) rfl
  · exact (passed_failed_partition
      ⟨[], [⟨1, "S1", "A", 50⟩, ⟨2, "S2", "B", 49⟩], 0, 3⟩).2.1
      ⟨2, "S2", "B", 49⟩ (by decide)

/-- C8: `delete_student` on an absent `student_id` reports not-found
(the affected-row count of the DELETE is zero) and leaves the store
unchanged; on a present `student_id` it commits the deletion. -/
theorem delete_student_spec (db : DB) (sid : String) :
    ((∀ r ∈ db.students, r.student_id ≠ sid) →
      delete_student true db sid = (db, .notFound)) ∧
    ((∃ r ∈ db.students, r.student_id = sid) →
      (delete_student true db sid).2 = .deleted ∧
      (delete_student true db sid).1.users = db.users ∧
      (delete_student true db sid).1.students
        = db.students.filter (fun r => !(r.student_id == sid))) := by
  constructor
  · intro h
    have hfil : db.students.filter (fun r => !(r.student_id == sid))
        = db.students := by
      apply List.filter_eq_self.mpr
      intro a ha
      simpa using h a ha
    simp [delete_student, hfil]
  · rintro ⟨r, hr, hsid⟩
    have hlt : (db.students.filter (fun r => !(r.student_id == sid))).length
        < db.students.length := by
      apply List.length_filter_lt_length_iff_exists.mpr
      exact ⟨r, hr, by simp [hsid]⟩
    have hne : ¬((db.students.filter
        (fun r => !(r.student_id == sid))).length = db.students.length) :=
      Nat.ne_of_lt hlt
    simp [delete_student, hne]

/-- C8 witness: deleting a missing id from a one-row store reports
not-found and changes nothing; deleting the present id commits. -/
theorem delete_student_spec_witness :
    delete_student true ⟨[], [⟨1, "S1", "A", 60⟩], 0, 2⟩ "S2"
      = (⟨[], [⟨1, "S1", "A", 60⟩], 0, 2⟩, .notFound) ∧
    (delete_student true ⟨[], [⟨1, "S1", "A", 60⟩], 0, 2⟩ "S1").2
      = .deleted := by
  constructor
  · exact (delete_student_spec ⟨[], [⟨1, "S1", "A", 60⟩], 0, 2⟩ "S2").1
      (by decide)
  · exact ((delete_student_spec ⟨[], [⟨1, "S1", "A", 60⟩], 0, 2⟩ "S1").2
      ⟨⟨1, "S1", "A", 60⟩, by decide, rfl⟩).1

/-- C4: `login` selects by exact, case-sensitive string equality on both
fields (the literal equality in the filter predicate) and returns `true`
iff exactly one row of the `Users` table matches; the hypothesis is the
UNIQUE constraint on `username`. -/
theorem login_iff_exactly_one_match (db : DB) (u p : String)
    (hnd : (db.users.map UserRow.username).Nodup) :
    login true db u p = true ↔
      (db.users.filter
        (fun r => r.username == u && r.password == p)).length = 1 := by
  have hle : (db.users.filter
      (fun r => r.username == u && r.password == p)).length ≤ 1 := by
    have hsub : ((db.users.filter
        (fun r => r.username == u && r.password == p)).map
          UserRow.username).Sublist (db.users.map UserRow.username) :=
      (List.filter_sublist _).map UserRow.username
    have hndF := hsub.nodup hnd
    have hconst : ∀ x ∈ (db.users.filter
        (fun r => r.username == u && r.password == p)).map UserRow.username,
        x = u := by
      intro x hx
      obtain ⟨r, hr, hrx⟩ := List.mem_map.mp hx
      have := (List.mem_filter.mp hr).2
      have hu : r.username = u := by
        simpa using (Bool.and_elim_left this)
      rw [← hrx, hu]
    have := nodup_const_length_le_one hndF hconst
    simpa using this
  constructor
  · intro h
    have hsome : (db.users.find?
        (fun r => r.username == u && r.password == p)).isSome = true := by
      simpa [login] using h
    obtain ⟨x, hx1, hx2⟩ := List.find?_isSome.mp hsome
    have hxF : x ∈ db.users.filter
        (fun r => r.username == u && r.password == p) :=
      List.mem_filter.mpr ⟨hx1, hx2⟩
    have h1 : 0 < (db.users.filter
        (fun r => r.username == u && r.password == p)).length :=
      List.length_pos.mpr (List.ne_nil_of_mem hxF)
    omega
  · intro h
    have hne : db.users.filter
        (fun r => r.username == u && r.password == p) ≠ [] := by
      intro hnil
      rw [hnil] at h
      simp at h
    obtain ⟨x, hx⟩ := List.exists_mem_of_ne_nil _ hne
    have hx1 := (List.mem_filter.mp hx).1
    have hx2 := (List.mem_filter.mp hx).2
    have : (db.users.find?
        (fun r => r.username == u && r.password == p)).isSome = true :=
      List.find?_isSome.mpr ⟨x, hx1, hx2⟩
    simpa [login] using this

/-- C4 witness: a one-row `Users` table; the matching pair logs in and the
filter has exactly one row. -/
theorem login_iff_exactly_one_match_witness :
    login true ⟨[⟨1, "alice", "secret"⟩], [], 2, 0⟩ "alice" "secret" = true := by
  exact (login_iff_exactly_one_match
    ⟨[⟨1, "alice", "secret"⟩], [], 2, 0⟩ "alice" "secret" (by decide)).mpr
    (by decide)

/-- C5: for non-empty username and password with the username not yet
registered, `register` succeeds and a subsequent `login` with the same
pair returns `true`. -/
theorem register_then_login (db : DB) (u p : String)
    (hu : u ≠ "") (hp : p ≠ "")
    (hfresh : ∀ r ∈ db.users, r.username ≠ u) :
    (register true db u p).2 = .registered ∧
    login true (register true db u p).1 u p = true := by
  have hany : (db.users.any (fun r => r.username == u)) = false := by
    rw [List.any_eq_false]
    intro r hr
    simpa using hfresh r hr
  have hreg : register true db u p
      = (⟨db.users ++ [⟨db.nextUserId, u, p⟩], db.students,
          db.nextUserId + 1, db.nextStudentId⟩, .registered) := by
    simp [register, hu, hp, hany]
  rw [hreg]
  refine ⟨rfl, ?_⟩
  have hnone : db.users.find?
      (fun r => r.username == u && r.password == p) = none := by
    apply List.find?_eq_none.mpr
    intro x hx
    simp only [Bool.and_eq_true, beq_iff_eq, not_and]
    intro hxu _
    exact hfresh x hx hxu
  simp [login, List.find?_append, hnone]

/-- C5 witness: registering then logging in with `alice`/`secret` on an
empty store succeeds. -/
theorem register_then_login_witness :
    login true (register true ⟨[], [], 0, 0⟩ "alice" "secret").1
      "alice" "secret" = true :=
  (register_then_login ⟨[], [], 0, 0⟩ "alice" "secret"
    (by decide) (by decide) (by intro r hr; simp at hr)).2

/-- C6: adding a student with a fresh `student_id` and then searching for
that id returns the record with exactly the added `student_id`, `name`
and `score`. -/
theorem add_then_find (parse : String → Option ℚ) (db : DB)
    (sid nm scoreInput : String) (score : ℚ)
    (hparse : parse scoreInput = some score)
    (hfresh : ∀ r ∈ db.students, r.student_id ≠ sid) :
    (add_student parse true db sid nm scoreInput).2 = .added ∧
    search_student_by_id (add_student parse true db sid nm scoreInput).1 sid
      = some ⟨db.nextStudentId, sid, nm, score⟩ := by
  have hany : (db.students.any (fun r => r.student_id == sid)) = false := by
    rw [List.any_eq_false]
    intro r hr
    simpa using hfresh r hr
  have hadd : add_student parse true db sid nm scoreInput
      = (⟨db.users, db.students ++ [⟨db.nextStudentId, sid, nm, score⟩],
          db.nextUserId, db.nextStudentId + 1⟩, .added) := by
    simp [add_student, hparse, hany]
  rw [hadd]
  refine ⟨rfl, ?_⟩
  have hnone : db.students.find? (fun r => r.student_id == sid) = none := by
    apply List.find?_eq_none.mpr
    intro x hx
    simpa using hfresh x hx
  simp [search_student_by_id, List.find?_append, hnone]

/-- C6 witness: adding `S1`/`Alice`/`92` to an empty store and searching
for `S1` returns exactly that record. -/
theorem add_then_find_witness :
    search_student_by_id
      (add_student parseScore true ⟨[], [], 0, 0⟩ "S1" "Alice" "92").1 "S1"
      = some ⟨0, "S1", "Alice", 92⟩ :=
  (add_then_find parseScore ⟨[], [], 0, 0⟩ "S1" "Alice" "92" 92
    (by decide) (by intro r hr; simp at hr)).2

/-- Reduction of `update_student` on a connection that opens and a row that
is found: the UPDATE statement is built from the kept-or-replaced name and
score and is committed. -/
theorem update_student_reduces (parse : String → Option ℚ) (db : DB)
    (sid nn ns : String) (row : StudentRow)
    (hrow : db.students.find? (fun r => r.student_id == sid) = some row) :
    update_student parse true db sid nn ns =
      (⟨db.users,
        db.students.map (fun r =>
          if r.student_id == sid then
            ⟨r.id, r.student_id,
              (if nn ≠ "" then nn else row.name),
              (if ns ≠ "" then
                 match parse ns with
                 | some q => (q, false)
                 | none => (row.score, true)
               else (row.score, false)).1⟩
          else r),
        db.nextUserId, db.nextStudentId⟩,
       if (if ns ≠ "" then
             match parse ns with
             | some q => (q, false)
             | none => (row.score, true)
           else (row.score, false)).2
       then .updatedInvalidScore else .updated) := by
  unfold update_student
  rw [hrow]
  rfl

/-- C1: on an existing `student_id`, a blank `new_name` keeps the stored
name, a blank `new_score` keeps the stored score, an unparsable
`new_score` is reported (`updatedInvalidScore`) while the old score is
retained, the operation never fails (`notFound`/`connError` are excluded
and the UPDATE is committed), and an update with both inputs blank leaves
the stored record identical in `student_id`, `name` and `score` (the
whole store is unchanged). -/
theorem update_student_blank_semantics (parse : String → Option ℚ)
    (db : DB) (sid : String) (row : StudentRow)
    (hnd : (db.students.map StudentRow.student_id).Nodup)
    (hrow : search_student_by_id db sid = some row) :
    (∀ nn ns, (update_student parse true db sid nn ns).2 ≠ .notFound ∧
              (update_student parse true db sid nn ns).2 ≠ .connError) ∧
    (∀ ns, ∃ q, search_student_by_id
        (update_student parse true db sid "" ns).1 sid
        = some ⟨row.id, row.student_id, row.name, q⟩) ∧
    (∀ nn, ∃ nm, search_student_by_id
        (update_student parse true db sid nn "").1 sid
        = some ⟨row.id, row.student_id, nm, row.score⟩) ∧
    (∀ nn ns, ns ≠ "" → parse ns = none →
      (update_student parse true db sid nn ns).2 = .updatedInvalidScore ∧
      search_student_by_id (update_student parse true db sid nn ns).1 sid
        = some ⟨row.id, row.student_id,
            (if nn ≠ "" then nn else row.name), row.score⟩) ∧
    ((update_student parse true db sid "" "").1 = db ∧
     (update_student parse true db sid "" "").2 = .updated) := by
  have hrow' : db.students.find? (fun r => r.student_id == sid) = some row := hrow
  have huniq : ∀ r ∈ db.students, (r.student_id == sid) = true → r = row := by
    intro r hr hrs
    have hrowmem : row ∈ db.students := List.mem_of_find?_eq_some hrow'
    have hrowsid : (row.student_id == sid) = true :=
      @List.find?_some _ (fun r => r.student_id == sid) row db.students hrow'
    apply List.inj_on_of_nodup_map hnd hr hrowmem
    simp only [beq_iff_eq] at hrs hrowsid
    rw [hrs, hrowsid]
  have houtcome : ∀ b : Bool,
      (if b then UpdOutcome.updatedInvalidScore else UpdOutcome.updated)
          ≠ UpdOutcome.notFound ∧
      (if b then UpdOutcome.updatedInvalidScore else UpdOutcome.updated)
          ≠ UpdOutcome.connError := by
    intro b
    cases b <;> simp
  refine ⟨?_, ?_, ?_, ?_, ?_⟩
  · intro nn ns
    rw [update_student_reduces parse db sid nn ns row hrow']
    exact houtcome _
  · intro ns
    rw [update_student_reduces parse db sid "" ns row hrow']
    exact ⟨_, find?_map_update hnd hrow' (fun r => rfl)⟩
  · intro nn
    rw [update_student_reduces parse db sid nn "" row hrow']
    exact ⟨_, find?_map_update hnd hrow' (fun r => rfl)⟩
  · intro nn ns hns hparse
    rw [update_student_reduces parse db sid nn ns row hrow']
    rw [if_pos hns, hparse]
    refine ⟨rfl, ?_⟩
    exact find?_map_update hnd hrow' (fun r => rfl)
  · rw [update_student_reduces parse db sid "" "" row hrow']
    constructor
    · show (⟨db.users,
        db.students.map (fun r =>
          if r.student_id == sid then
            (⟨r.id, r.student_id, row.name, row.score⟩ : StudentRow)
          else r),
        db.nextUserId, db.nextStudentId⟩ : DB) = db
      have hmap : db.students.map (fun r =>
          if r.student_id == sid then
            (⟨r.id, r.student_id, row.name, row.score⟩ : StudentRow)
          else r) = db.students :=
        map_update_id (fun r hr hrs => by rw [huniq r hr hrs])
      rw [hmap]
    · rfl

/-- C1 witness: on a one-row store, a both-blank update leaves the store
unchanged, and an unparsable score input reports the invalid score while
the update still goes through. -/
theorem update_student_blank_semantics_witness :
    (update_student parseScore true
        ⟨[], [⟨1, "S1", "A", 60⟩], 0, 2⟩ "S1" "" "").1
      = ⟨[], [⟨1, "S1", "A", 60⟩], 0, 2⟩ ∧
    (update_student parseScore true
        ⟨[], [⟨1, "S1", "A", 60⟩], 0, 2⟩ "S1" "Bob" "abc").2
      = .updatedInvalidScore := by
  constructor
  · exact (update_student_blank_semantics parseScore
      ⟨[], [⟨1, "S1", "A", 60⟩], 0, 2⟩ "S1" ⟨1, "S1", "A", 60⟩
      (by decide) rfl).2.2.2.2.1
  · exact ((update_student_blank_semantics parseScore
      ⟨[], [⟨1, "S1", "A", 60⟩], 0, 2⟩ "S1" ⟨1, "S1", "A", 60⟩
      (by decide) rfl).2.2.2.1 "Bob" "abc" (by decide) rfl).1

/-- C3 counterexample: with a compatible driver present but the connection
attempt failing, the process terminates at startup through the uncaught
exception re-raised out of `init_db` (`src/main.py:73` and `121`) — a
termination path that is neither `DriverNotFound` (`sys.exit(1)` at
`src/main.py:51`) nor the user choosing Exit. -/
theorem startup_conn_failure_is_third_exit :
    startup ["Microsoft Access Driver (*.mdb, *.accdb)"] false
      = .exitInitError ∧
    StartupResult.exitInitError ≠ StartupResult.exitDriverNotFound ∧
    StartupResult.exitInitError ≠ StartupResult.menuEntered := by
  refine ⟨rfl, by decide, by decide⟩

/-- C3 (amended): `DriverNotFound` is the startup exit exactly when no
compatible driver resolves, but with a driver present a failed connection
also terminates the process at startup (`exitInitError`); once the menu
loop runs, the student menu never exits the process (its control flow is
independent of whether the dispatched operation failed), the top-level
loop exits only on the explicit `"3"` choice, and every data operation
turns a connection failure into a reported outcome with the store left
unchanged. -/
theorem session_error_containment :
    (∀ ds ok, startup ds ok = .exitDriverNotFound ↔
      find_access_driver ds = none) ∧
    (∀ c e, (c = "11" → student_menu_step c e = .top) ∧
            (c ≠ "11" → student_menu_step c e = .studentMenu)) ∧
    (∀ c e₁ e₂, student_menu_step c e₁ = student_menu_step c e₂) ∧
    (∀ c b e, main_menu_step c b e = .exitProcess ↔ c = "3") ∧
    (∀ db u p, register false db u p
        = (db, if u = "" ∨ p = "" then .invalidInput else .connError)) ∧
    (∀ db u p, login false db u p = false) ∧
    (∀ parse db sid nm sc, add_student parse false db sid nm sc
        = (db, if (parse sc).isSome then .connError else .invalidScore)) ∧
    (∀ parse db sid nn ns,
      update_student parse false db sid nn ns = (db, .connError)) ∧
    (∀ db sid, delete_student false db sid = (db, .connError)) := by
  refine ⟨?_, ?_, ?_, ?_, ?_, ?_, ?_, ?_, ?_⟩
  · intro ds ok
    simp only [startup]
    cases h : find_access_driver ds with
    | none => simp
    | some d =>
        cases ok <;> simp
  · intro c e
    constructor
    · intro h
      simp [student_menu_step, h]
    · intro h
      simp [student_menu_step, h]
  · intro c e₁ e₂
    rfl
  · intro c b e
    by_cases h1 : c = "1"
    · simp [main_menu_step, h1]
    · by_cases h2 : c = "2"
      · cases b <;> simp [main_menu_step, h1, h2]
      · by_cases h3 : c = "3"
        · simp [main_menu_step, h1, h2, h3]
        · simp [main_menu_step, h1, h2, h3]
  · intro db u p
    by_cases h : u = "" ∨ p = ""
    · simp [register, h]
    · simp [register, h]
  · intro db u p
    rfl
  · intro parse db sid nm sc
    cases h : parse sc with
    | none => simp [add_student, h]
    | some q => simp [add_student, h]
  · intro parse db sid nn ns
    rfl
  · intro db sid
    rfl

/-- C3 witness: a host without a compatible driver exits with
`DriverNotFound`; mid-session, an invalid student-menu choice stays in the
menu and the explicit `"3"` choice is the only top-level process exit. -/
theorem session_error_containment_witness :
    startup ["SQL Server"] true = .exitDriverNotFound ∧
    student_menu_step "5" true = .studentMenu ∧
    main_menu_step "3" false false = .exitProcess := by
  refine ⟨?_, ?_, ?_⟩
  · exact (session_error_containment.1 ["SQL Server"] true).mpr rfl
  · exact (session_error_containment.2.1 "5" true).2 (by decide)
  · exact (session_error_containment.2.2.2.1 "3" false false).mpr rfl
